import Mathlib

/-!
Shallow embedding of `gcp/bigquery/_api.py` (BigQuery HTTP API wrapper).

The module under verification is a request builder: each method of the
`Api` class formats a URL from a path template, assembles a JSON body or a
query-argument mapping, and hands the request to an external transport
(`_util.Http.request`). We embed each method as a pure function from the
client context and the call parameters to the request it issues (explicit
state passing: every method also returns the client context it leaves
behind). The transport itself is out of scope; where a method
post-processes the transport response (the `selfLink` extraction of the
two insert methods) it takes the transport as a function argument.

Python dicts are modelled as association lists in insertion order (the
source only ever inserts fresh keys, so keys are unique). Python
truthiness of an optional string (`None` and `""` are falsy) is modelled
by `truthyStr`.
-/

namespace DataLab

/-- JSON-serializable values, the payloads the wrapper builds. -/
inductive Json where
  | str : String → Json
  | boolean : Bool → Json
  | nat : Nat → Json
  | obj : List (String × Json) → Json
  | arr : List Json → Json

/-- Python membership test `k in d` on a dict modelled as an association list. -/
def dictContains (d : List (String × Json)) (k : String) : Bool :=
  d.any (fun kv => kv.1 == k)

/-- Python subscript `d[k]`; a missing key (Python KeyError) is `none`. -/
def dictGet (d : List (String × Json)) (k : String) : Option Json :=
  match d.find? (fun kv => kv.1 == k) with
  | some kv => some kv.2
  | none => none

/-- Field lookup inside a JSON value: on an object, `dictGet`; otherwise `none`. -/
def Json.lookupKey : Json → String → Option Json
  | Json.obj fields, k => dictGet fields k
  | _, _ => none

/-- Field presence inside a JSON value. -/
def Json.hasKey : Json → String → Bool
  | Json.obj fields, k => dictContains fields k
  | _, _ => false

/-- Lookup through an optional JSON value. -/
def Json.optLookup (j : Option Json) (k : String) : Option Json :=
  match j with
  | some v => v.lookupKey k
  | none => none

/-- Key presence through an optional JSON value. -/
def Json.optHasKey (j : Option Json) (k : String) : Bool :=
  match j with
  | some v => v.hasKey k
  | none => false

/-- Python truthiness of an optional string: `None` and `""` are falsy. -/
def truthyStr : Option String → Bool
  | none => false
  | some s => !(s == "")

/-- The request descriptor handed to `_util.Http.request`: URL, optional
query-argument mapping, optional JSON body, optional explicit HTTP method,
and the credential handle. -/
structure HttpRequest where
  url : String
  args : Option (List (String × Json))
  data : Option Json
  method : Option String
  credentials : String

/-- Lookup in the query-argument mapping of a request: `none` when the
request carries no mapping or the key is absent. -/
def argsGet (r : HttpRequest) (k : String) : Option Json :=
  match r.args with
  | some m => dictGet m k
  | none => none

/-- Key presence in the query-argument mapping of a request. -/
def argsContains (r : HttpRequest) (k : String) : Bool :=
  match r.args with
  | some m => dictContains m k
  | none => false

/-- Client context of the `Api` class: a credential handle (opaque,
modelled as a string) and a project identifier, both set at construction. -/
structure Api where
  credentials : String
  project_id : String

namespace Api

/-- Class constant `_ENDPOINT`. -/
def ENDPOINT : String := "https://www.googleapis.com/bigquery/v2"

/-- Path template `/projects/%s/jobs`. -/
def JOBS_PATH (project : String) : String :=
  "/projects/" ++ project ++ "/jobs"

/-- Path template `/projects/%s/queries`. -/
def QUERY_PATH (project : String) : String :=
  "/projects/" ++ project ++ "/queries"

/-- Path template `/projects/%s/queries/%s`. -/
def QUERY_RESULT_PATH (project jobId : String) : String :=
  "/projects/" ++ project ++ "/queries/" ++ jobId

/-- Path template `/projects/%s/datasets/%s`. -/
def DATASETS_PATH (project datasetId : String) : String :=
  "/projects/" ++ project ++ "/datasets/" ++ datasetId

/-- Path template `/projects/%s/datasets/%s/tables/%s`. -/
def TABLES_PATH (project datasetId tableId : String) : String :=
  "/projects/" ++ project ++ "/datasets/" ++ datasetId ++ "/tables/" ++ tableId

/-- Class constant `_DEFAULT_PAGE_SIZE`. -/
def DEFAULT_PAGE_SIZE : Nat := 10000

/-- Class constant `_DEFAULT_TIMEOUT` (milliseconds). -/
def DEFAULT_TIMEOUT : Nat := 60000

/-- Embedding of `Api.jobs_insert_query`: build the job-insert request.
Returns the (unchanged) client context and the request issued. -/
def jobs_insert_query (self : Api) (sql : String)
    (dataset_id table_id : Option String)
    (append overwrite dry_run use_cache : Bool) : Api × HttpRequest :=
  let url := ENDPOINT ++ JOBS_PATH self.project_id
  let query_config : List (String × Json) :=
    [("query", Json.str sql),
     ("useQueryCache", Json.boolean use_cache)]
  let query_config :=
    if truthyStr dataset_id && truthyStr table_id then
      let q := query_config ++
        [("destinationTable", Json.obj
          [("projectId", Json.str self.project_id),
           ("datasetId", Json.str (dataset_id.getD "")),
           ("tableId", Json.str (table_id.getD ""))])]
      if append then
        q ++ [("writeDisposition", Json.str "WRITE_APPEND")]
      else if overwrite then
        q ++ [("writeDisposition", Json.str "WRITE_TRUNCATE")]
      else q
    else query_config
  let data := Json.obj
    [("kind", Json.str "bigquery#job"),
     ("configuration", Json.obj
       [("query", Json.obj query_config),
        ("dryRun", Json.boolean dry_run),
        ("priority", Json.str "INTERACTIVE")])]
  (self, ⟨url, none, some data, none, self.credentials⟩)

/-- Embedding of `Api.jobs_query`: build the ad-hoc query request, with
0 / `None` sentinels replaced by the class defaults. -/
def jobs_query (self : Api) (sql : String) (page_size : Nat)
    (timeout : Option Nat) (dry_run use_cache : Bool) : Api × HttpRequest :=
  let page_size := if page_size = 0 then DEFAULT_PAGE_SIZE else page_size
  let timeout :=
    match timeout with
    | none => DEFAULT_TIMEOUT
    | some t => t
  let url := ENDPOINT ++ QUERY_PATH self.project_id
  let data := Json.obj
    [("kind", Json.str "bigquery#queryRequest"),
     ("query", Json.str sql),
     ("maxResults", Json.nat page_size),
     ("timeoutMs", Json.nat timeout),
     ("dryRun", Json.boolean dry_run),
     ("useQueryCache", Json.boolean use_cache)]
  (self, ⟨url, none, some data, none, self.credentials⟩)

/-- Embedding of `Api.jobs_query_results`: build the query-results request,
with the same sentinel defaulting as `jobs_query`, parameters sent as
query arguments. -/
def jobs_query_results (self : Api) (job_id : String) (page_size : Nat)
    (timeout : Option Nat) (start_index : Nat) : Api × HttpRequest :=
  let page_size := if page_size = 0 then DEFAULT_PAGE_SIZE else page_size
  let timeout :=
    match timeout with
    | none => DEFAULT_TIMEOUT
    | some t => t
  let args : List (String × Json) :=
    [("maxResults", Json.nat page_size),
     ("timeoutMs", Json.nat timeout),
     ("startIndex", Json.nat start_index)]
  let url := ENDPOINT ++ QUERY_RESULT_PATH self.project_id job_id
  (self, ⟨url, some args, none, none, self.credentials⟩)

/-- Request built by `Api.datasets_insert`: the dataset body, with
`friendlyName` and `description` added only when truthy. -/
def datasets_insert_request (self : Api) (dataset_id : String)
    (friendly_name description : Option String) : HttpRequest :=
  let url := ENDPOINT ++ DATASETS_PATH self.project_id ""
  let data : List (String × Json) :=
    [("kind", Json.str "bigquery#dataset"),
     ("datasetReference", Json.obj
       [("projectId", Json.str self.project_id),
        ("datasetId", Json.str dataset_id)])]
  let data :=
    if truthyStr friendly_name then
      data ++ [("friendlyName", Json.str (friendly_name.getD ""))]
    else data
  let data :=
    if truthyStr description then
      data ++ [("description", Json.str (description.getD ""))]
    else data
  ⟨url, none, some (Json.obj data), none, self.credentials⟩

/-- Embedding of `Api.datasets_insert`: issue the request through the
transport and return `response[selfLink]` when present, else `None`. -/
def datasets_insert (self : Api)
    (transport : HttpRequest → List (String × Json)) (dataset_id : String)
    (friendly_name description : Option String) : Api × Option Json :=
  let response :=
    transport (datasets_insert_request self dataset_id friendly_name description)
  (self,
    if dictContains response "selfLink" then dictGet response "selfLink"
    else none)

/-- Embedding of `Api.datasets_delete`: a `deleteContents` mapping is built
into the local `args` but the transport call is issued without any `args`
(the call site omits the parameter), with method DELETE. -/
def datasets_delete (self : Api) (dataset_id : String)
    (delete_contents : Bool) : Api × HttpRequest :=
  let url := ENDPOINT ++ DATASETS_PATH self.project_id dataset_id
  let args : List (String × Json) :=
    if delete_contents then [("deleteContents", Json.boolean true)] else []
  (self, ⟨url, none, none, some "DELETE", self.credentials⟩)

/-- Embedding of `Api.datasets_get`. -/
def datasets_get (self : Api) (dataset_id : String) : Api × HttpRequest :=
  let url := ENDPOINT ++ DATASETS_PATH self.project_id dataset_id
  (self, ⟨url, none, none, none, self.credentials⟩)

/-- Embedding of `Api.datasets_list`: paging arguments are added to the
query-argument mapping only when they differ from the defaults 0 / `None`. -/
def datasets_list (self : Api) (max_results : Nat)
    (page_token : Option String) : Api × HttpRequest :=
  let url := ENDPOINT ++ DATASETS_PATH self.project_id ""
  let args : List (String × Json) := []
  let args :=
    if max_results ≠ 0 then args ++ [("maxResults", Json.nat max_results)]
    else args
  let args :=
    match page_token with
    | some tok => args ++ [("pageToken", Json.str tok)]
    | none => args
  (self, ⟨url, some args, none, none, self.credentials⟩)

/-- Embedding of `Api.tables_get`: the URL is formatted from the
caller-supplied `name_parts` triple alone. -/
def tables_get (self : Api) (name_parts : String × String × String) :
    Api × HttpRequest :=
  let url := ENDPOINT ++ TABLES_PATH name_parts.1 name_parts.2.1 name_parts.2.2
  (self, ⟨url, none, none, none, self.credentials⟩)

/-- Embedding of `Api.tables_list`: same optional paging arguments as
`datasets_list`. -/
def tables_list (self : Api) (dataset_id : String) (max_results : Nat)
    (page_token : Option String) : Api × HttpRequest :=
  let url := ENDPOINT ++ TABLES_PATH self.project_id dataset_id ""
  let args : List (String × Json) := []
  let args :=
    if max_results ≠ 0 then args ++ [("maxResults", Json.nat max_results)]
    else args
  let args :=
    match page_token with
    | some tok => args ++ [("pageToken", Json.str tok)]
    | none => args
  (self, ⟨url, some args, none, none, self.credentials⟩)

/-- Request built by `Api.tables_insert`: the table body with reference and
schema, `friendlyName` and `description` added only when truthy. -/
def tables_insert_request (self : Api) (dataset_id table_id : String)
    (schema : List Json) (friendly_name description : Option String) :
    HttpRequest :=
  let url := ENDPOINT ++ TABLES_PATH self.project_id dataset_id ""
  let data : List (String × Json) :=
    [("kind", Json.str "bigquery#table"),
     ("tableReference", Json.obj
       [("projectId", Json.str self.project_id),
        ("datasetId", Json.str dataset_id),
        ("tableId", Json.str table_id)]),
     ("schema", Json.obj [("fields", Json.arr schema)])]
  let data :=
    if truthyStr friendly_name then
      data ++ [("friendlyName", Json.str (friendly_name.getD ""))]
    else data
  let data :=
    if truthyStr description then
      data ++ [("description", Json.str (description.getD ""))]
    else data
  ⟨url, none, some (Json.obj data), none, self.credentials⟩

/-- Embedding of `Api.tables_insert`: issue the request through the
transport and return `response[selfLink]` when present, else `None`. -/
def tables_insert (self : Api)
    (transport : HttpRequest → List (String × Json))
    (dataset_id table_id : String) (schema : List Json)
    (friendly_name description : Option String) : Api × Option Json :=
  let response :=
    transport (tables_insert_request self dataset_id table_id schema
      friendly_name description)
  (self,
    if dictContains response "selfLink" then dictGet response "selfLink"
    else none)

/-- Embedding of `Api.tables_insertAll`: bulk row insert. -/
def tables_insertAll (self : Api) (dataset_id table_id : String)
    (rows : List Json) : Api × HttpRequest :=
  let url := ENDPOINT ++ TABLES_PATH self.project_id dataset_id table_id
    ++ "/insertAll"
  let data := Json.obj
    [("kind", Json.str "bigquery#tableDataInsertAllRequest"),
     ("rows", Json.arr rows)]
  (self, ⟨url, none, some data, none, self.credentials⟩)

/-- Embedding of `Api.table_delete`: DELETE on the fully substituted table
path. -/
def table_delete (self : Api) (dataset_id table_id : String) :
    Api × HttpRequest :=
  let url := ENDPOINT ++ TABLES_PATH self.project_id dataset_id table_id
  (self, ⟨url, none, none, some "DELETE", self.credentials⟩)

end Api

/-- One method call on an `Api` instance, with its arguments; used to state
that no sequence of calls changes the client context. -/
inductive Call where
  | jobsInsertQuery (sql : String) (dataset_id table_id : Option String)
      (append overwrite dry_run use_cache : Bool)
  | jobsQuery (sql : String) (page_size : Nat) (timeout : Option Nat)
      (dry_run use_cache : Bool)
  | jobsQueryResults (job_id : String) (page_size : Nat)
      (timeout : Option Nat) (start_index : Nat)
  | datasetsInsert (transport : HttpRequest → List (String × Json))
      (dataset_id : String) (friendly_name description : Option String)
  | datasetsDelete (dataset_id : String) (delete_contents : Bool)
  | datasetsGet (dataset_id : String)
  | datasetsList (max_results : Nat) (page_token : Option String)
  | tablesGet (name_parts : String × String × String)
  | tablesList (dataset_id : String) (max_results : Nat)
      (page_token : Option String)
  | tablesInsert (transport : HttpRequest → List (String × Json))
      (dataset_id table_id : String) (schema : List Json)
      (friendly_name description : Option String)
  | tablesInsertAll (dataset_id table_id : String) (rows : List Json)
  | tableDelete (dataset_id table_id : String)

/-- The client context an `Api` instance is left with after executing one
method call. -/
def step (a : Api) : Call → Api
  | Call.jobsInsertQuery sql d t ap ov dr uc =>
      (a.jobs_insert_query sql d t ap ov dr uc).1
  | Call.jobsQuery sql ps tmo dr uc => (a.jobs_query sql ps tmo dr uc).1
  | Call.jobsQueryResults j ps tmo si => (a.jobs_query_results j ps tmo si).1
  | Call.datasetsInsert tr d fn desc => (a.datasets_insert tr d fn desc).1
  | Call.datasetsDelete d dc => (a.datasets_delete d dc).1
  | Call.datasetsGet d => (a.datasets_get d).1
  | Call.datasetsList mr pt => (a.datasets_list mr pt).1
  | Call.tablesGet np => (a.tables_get np).1
  | Call.tablesList d mr pt => (a.tables_list d mr pt).1
  | Call.tablesInsert tr d t sc fn desc =>
      (a.tables_insert tr d t sc fn desc).1
  | Call.tablesInsertAll d t rows => (a.tables_insertAll d t rows).1
  | Call.tableDelete d t => (a.table_delete d t).1

/-- Presence of a key in a dict agrees with its lookup succeeding. -/
theorem dictContains_eq_isSome (d : List (String × Json)) (k : String) :
    dictContains d k = (dictGet d k).isSome := by
  induction d with
  | nil => rfl
  | cons kv tl ih =>
    cases h : (kv.1 == k) <;>
      simp [dictContains, dictGet, List.any_cons, List.find?_cons, h] at ih ⊢ <;>
      simpa [dictContains, dictGet] using ih

/-- C3: datasets_delete builds a deleteContents mapping locally but the
transport request it issues carries no query arguments at all, whatever
the value of delete_contents; the request method is DELETE. -/
theorem datasets_delete_omits_args (a : Api) (dataset_id : String)
    (delete_contents : Bool) :
    (a.datasets_delete dataset_id delete_contents).2.args = none
    ∧ (a.datasets_delete dataset_id delete_contents).2.method = some "DELETE" :=
  ⟨rfl, rfl⟩

/-- C4: the job-insert body for sql "SELECT 1", dataset "d1", table "t1",
overwrite true and everything else at its default is exactly the documented
payload, with the destination rooted at the client's project identifier. -/
theorem jobs_insert_query_example_body (a : Api) :
    (a.jobs_insert_query "SELECT 1" (some "d1") (some "t1") false true false
        true).2.data
      = some (Json.obj
        [("kind", Json.str "bigquery#job"),
         ("configuration", Json.obj
           [("query", Json.obj
             [("query", Json.str "SELECT 1"),
              ("useQueryCache", Json.boolean true),
              ("destinationTable", Json.obj
                [("projectId", Json.str a.project_id),
                 ("datasetId", Json.str "d1"),
                 ("tableId", Json.str "t1")]),
              ("writeDisposition", Json.str "WRITE_TRUNCATE")]),
            ("dryRun", Json.boolean false),
            ("priority", Json.str "INTERACTIVE")])]) := rfl

/-- C7: table_delete and datasets_delete issue DELETE requests whose URLs
are the fixed path templates with the supplied identifiers substituted. -/
theorem delete_verb_and_path (a : Api) (dataset_id table_id : String)
    (delete_contents : Bool) :
    ((a.table_delete dataset_id table_id).2.method = some "DELETE")
    ∧ ((a.table_delete dataset_id table_id).2.url
        = Api.ENDPOINT ++ Api.TABLES_PATH a.project_id dataset_id table_id)
    ∧ ((a.datasets_delete dataset_id delete_contents).2.method = some "DELETE")
    ∧ ((a.datasets_delete dataset_id delete_contents).2.url
        = Api.ENDPOINT ++ Api.DATASETS_PATH a.project_id dataset_id) :=
  ⟨rfl, rfl, rfl, rfl⟩

/-- C1: the job-insert body has a destinationTable block in its query
configuration exactly when both dataset_id and table_id are supplied and
non-empty; in that case writeDisposition is WRITE_APPEND when append is
set (taking precedence over overwrite), WRITE_TRUNCATE when only overwrite
is set, and absent when neither is; without a destination the
configuration has no writeDisposition either. -/
theorem jobs_insert_query_destination_spec (a : Api) (sql : String)
    (dataset_id table_id : Option String)
    (append overwrite dry_run use_cache : Bool) :
    (Json.optHasKey
        (Json.optLookup
          (Json.optLookup
            (a.jobs_insert_query sql dataset_id table_id append overwrite
              dry_run use_cache).2.data "configuration") "query")
        "destinationTable"
      = (truthyStr dataset_id && truthyStr table_id))
    ∧ (Json.optLookup
        (Json.optLookup
          (Json.optLookup
            (a.jobs_insert_query sql dataset_id table_id append overwrite
              dry_run use_cache).2.data "configuration") "query")
        "writeDisposition"
      = if truthyStr dataset_id && truthyStr table_id then
          (if append then some (Json.str "WRITE_APPEND")
           else if overwrite then some (Json.str "WRITE_TRUNCATE")
           else none)
        else none) := by
  cases hdt : truthyStr dataset_id && truthyStr table_id <;>
    cases append <;> cases overwrite <;>
      simp [Api.jobs_insert_query, hdt, Json.optLookup, Json.lookupKey,
        Json.optHasKey, Json.hasKey, dictGet, dictContains]

/-- C2: jobs_query and jobs_query_results replace the page-size sentinel 0
by 10000 in maxResults and the timeout sentinel None by 60000 in timeoutMs;
a non-sentinel value is sent unchanged, so the sentinels themselves never
appear on the wire. -/
theorem query_page_size_timeout_defaults (a : Api) (sql job_id : String)
    (page_size : Nat) (timeout : Option Nat) (start_index : Nat)
    (dry_run use_cache : Bool) :
    (Json.optLookup
        (a.jobs_query sql page_size timeout dry_run use_cache).2.data
        "maxResults"
      = some (Json.nat (if page_size = 0 then 10000 else page_size)))
    ∧ (Json.optLookup
        (a.jobs_query sql page_size timeout dry_run use_cache).2.data
        "timeoutMs"
      = some (Json.nat (timeout.getD 60000)))
    ∧ (argsGet (a.jobs_query_results job_id page_size timeout start_index).2
        "maxResults"
      = some (Json.nat (if page_size = 0 then 10000 else page_size)))
    ∧ (argsGet (a.jobs_query_results job_id page_size timeout start_index).2
        "timeoutMs"
      = some (Json.nat (timeout.getD 60000))) := by
  cases page_size <;> cases timeout <;>
    simp [Api.jobs_query, Api.jobs_query_results, Api.DEFAULT_PAGE_SIZE,
      Api.DEFAULT_TIMEOUT, Json.optLookup, Json.lookupKey, argsGet, dictGet]

/-- C5: datasets_insert and tables_insert return exactly the selfLink field
of the transport response when it is present, and return none when the
response has no selfLink field. -/
theorem insert_returns_self_link_or_none (a : Api)
    (resp : List (String × Json)) (dataset_id table_id : String)
    (schema : List Json) (friendly_name description : Option String) :
    (dictGet resp "selfLink" = none →
      (a.datasets_insert (fun _ => resp) dataset_id friendly_name
          description).2 = none
      ∧ (a.tables_insert (fun _ => resp) dataset_id table_id schema
          friendly_name description).2 = none)
    ∧ ∀ v : Json, dictGet resp "selfLink" = some v →
        (a.datasets_insert (fun _ => resp) dataset_id friendly_name
            description).2 = some v
        ∧ (a.tables_insert (fun _ => resp) dataset_id table_id schema
            friendly_name description).2 = some v := by
  constructor
  · intro h
    have hc : dictContains resp "selfLink" = false := by
      rw [dictContains_eq_isSome, h]; rfl
    exact ⟨by simp [Api.datasets_insert, hc], by simp [Api.tables_insert, hc]⟩
  · intro v h
    have hc : dictContains resp "selfLink" = true := by
      rw [dictContains_eq_isSome, h]; rfl
    exact ⟨by simp [Api.datasets_insert, hc, h],
           by simp [Api.tables_insert, hc, h]⟩

/-- Witness for C5 at a concrete response carrying a selfLink. -/
theorem insert_returns_self_link_witness :
    ((Api.mk "c" "p").datasets_insert
        (fun _ => [("selfLink", Json.str "u")]) "d" none none).2
      = some (Json.str "u") :=
  ((insert_returns_self_link_or_none (Api.mk "c" "p")
      [("selfLink", Json.str "u")] "d" "t" [] none none).2
    (Json.str "u") rfl).1

/-- C6: datasets_list and tables_list omit maxResults from the
query-argument mapping exactly when max_results is the default 0 and omit
pageToken exactly when page_token is the default None; otherwise the
supplied values appear verbatim under those keys. -/
theorem list_paging_args_optional (a : Api) (dataset_id : String)
    (max_results : Nat) (page_token : Option String) :
    (argsContains (a.datasets_list max_results page_token).2 "maxResults"
      = (max_results != 0))
    ∧ (argsContains (a.datasets_list max_results page_token).2 "pageToken"
      = page_token.isSome)
    ∧ (argsGet (a.datasets_list max_results page_token).2 "maxResults"
      = if max_results = 0 then none else some (Json.nat max_results))
    ∧ (argsGet (a.datasets_list max_results page_token).2 "pageToken"
      = Option.map Json.str page_token)
    ∧ (argsContains (a.tables_list dataset_id max_results page_token).2
        "maxResults" = (max_results != 0))
    ∧ (argsContains (a.tables_list dataset_id max_results page_token).2
        "pageToken" = page_token.isSome)
    ∧ (argsGet (a.tables_list dataset_id max_results page_token).2
        "maxResults"
      = if max_results = 0 then none else some (Json.nat max_results))
    ∧ (argsGet (a.tables_list dataset_id max_results page_token).2
        "pageToken"
      = Option.map Json.str page_token) := by
  cases max_results <;> cases page_token <;>
    simp [Api.datasets_list, Api.tables_list, argsGet, argsContains,
      dictGet, dictContains]

/-- C8: the dataset-insert and table-insert bodies carry friendlyName
exactly when friendly_name is supplied and non-empty, and carry
description exactly when description is supplied and non-empty, with the
caller's strings unchanged as the values. -/
theorem insert_optional_fields (a : Api) (dataset_id table_id : String)
    (schema : List Json) (friendly_name description : Option String) :
    (Json.optLookup
        (Api.datasets_insert_request a dataset_id friendly_name
          description).data "friendlyName"
      = if truthyStr friendly_name then Option.map Json.str friendly_name
        else none)
    ∧ (Json.optLookup
        (Api.datasets_insert_request a dataset_id friendly_name
          description).data "description"
      = if truthyStr description then Option.map Json.str description
        else none)
    ∧ (Json.optLookup
        (Api.tables_insert_request a dataset_id table_id schema
          friendly_name description).data "friendlyName"
      = if truthyStr friendly_name then Option.map Json.str friendly_name
        else none)
    ∧ (Json.optLookup
        (Api.tables_insert_request a dataset_id table_id schema
          friendly_name description).data "description"
      = if truthyStr description then Option.map Json.str description
        else none) := by
  rcases friendly_name with _ | fn <;> rcases description with _ | ds
  · simp [Api.datasets_insert_request, Api.tables_insert_request, truthyStr,
      Json.optLookup, Json.lookupKey, dictGet]
  · rcases Bool.eq_false_or_eq_true (ds == "") with hd | hd <;>
      simp [Api.datasets_insert_request, Api.tables_insert_request, truthyStr,
        hd, Json.optLookup, Json.lookupKey, dictGet]
  · rcases Bool.eq_false_or_eq_true (fn == "") with hf | hf <;>
      simp [Api.datasets_insert_request, Api.tables_insert_request, truthyStr,
        hf, Json.optLookup, Json.lookupKey, dictGet]
  · rcases Bool.eq_false_or_eq_true (fn == "") with hf | hf <;>
      rcases Bool.eq_false_or_eq_true (ds == "") with hd | hd <;>
        simp [Api.datasets_insert_request, Api.tables_insert_request,
          truthyStr, hf, hd, Json.optLookup, Json.lookupKey, dictGet]

/-- Each single method call leaves the client context unchanged. -/
theorem step_preserves_context (a : Api) (c : Call) : step a c = a := by
  cases c <;> rfl

/-- C9: after any sequence of method calls on an Api instance, its
credentials and project_id equal the values given at construction. -/
theorem api_context_immutable (a : Api) (calls : List Call) :
    ((calls.foldl step a).credentials = a.credentials)
    ∧ ((calls.foldl step a).project_id = a.project_id) := by
  have h : calls.foldl step a = a := by
    induction calls with
    | nil => rfl
    | cons c tl ih => rw [List.foldl_cons, step_preserves_context]; exact ih
  rw [h]; exact ⟨rfl, rfl⟩

/-- C10: the tables_get URL is formed from the caller-supplied name_parts
alone, and for some name_parts it differs from the URL rooted at the
client's project identifier. -/
theorem tables_get_ignores_project_id (a : Api)
    (name_parts : String × String × String) :
    ((a.tables_get name_parts).2.url
      = Api.ENDPOINT
        ++ Api.TABLES_PATH name_parts.1 name_parts.2.1 name_parts.2.2)
    ∧ ∃ np : String × String × String,
        (a.tables_get np).2.url
          ≠ Api.ENDPOINT ++ Api.TABLES_PATH a.project_id np.2.1 np.2.2 := by
  refine ⟨rfl, ⟨(a.project_id ++ "x", "d", "t"), fun h => ?_⟩⟩
  have hlen := congrArg String.length h
  have hx : ("x" : String).length = 1 := rfl
  simp only [Api.tables_get, Api.TABLES_PATH, Api.ENDPOINT,
    String.length_append, hx] at hlen
  omega

end DataLab
